import Mathlib

/-!
Verification development for the tinygrib2 GRIB2 decoder.

The Rust sources are shallowly embedded: a byte stream is a `List ℕ`
(each read reduces the element modulo 256, so every value obtained from
the stream is a byte), fallible reads return a `Ret` value together with
the remaining stream, and machine integers are natural numbers reduced
modulo `2^w` exactly where the Rust types (`u32`, ...) wrap.
-/

namespace TinyGrib2

/-- Error type of `src/lib.rs`.  The source names the first variant `IO`;
it is called `ioErr` here.  `UnsupportedData` is constructed by
`read_data_7_200` in `src/templates/data.rs`; its declaration is not part
of the provided `lib.rs` snapshot.
Modelled from the spec: section 7 lists the error kind
`UnsupportedFeature` ("recognized-but-unimplemented template variant,
e.g., a number_of_bits other than 8 in the run-length decoder") as a
variant of the error type, carrying a message. -/
inductive Error where
  | ioErr : Error
  | InvalidData : String → Error
  | UnsupportedData : String → Error
  deriving DecidableEq, Repr

/-- Outcome of running a piece of Rust code: a normal value, an `Err`
propagated via `?`, or a Rust panic (out-of-bounds `Vec` indexing or
arithmetic overflow in debug builds). -/
inductive Ret (α : Type) where
  | ok : α → Ret α
  | err : Error → Ret α
  | panic : Ret α
  deriving DecidableEq, Repr

/-- Sequencing of stateful fallible computations: the Rust `?` operator.
`err` and `panic` short-circuit. -/
def stBind {α β : Type} (x : Ret α × List ℕ) (f : α → List ℕ → Ret β × List ℕ) :
    Ret β × List ℕ :=
  match x with
  | (.ok a, s) => f a s
  | (.err e, s) => (.err e, s)
  | (.panic, s) => (.panic, s)

/-- `2^32`, the modulus of Rust `u32` arithmetic. -/
def W32 : ℕ := 4294967296

/-- Read exactly `n` bytes (the semantics of `Read::read_exact`, which
every `byteorder` fixed-width read uses): an unexpected end of file is an
IO error. -/
def readN (n : ℕ) (s : List ℕ) : Ret (List ℕ) × List ℕ :=
  if s.length < n then (.err .ioErr, s) else (.ok (s.take n), s.drop n)

/-- Combine bytes big-endian (most significant first). -/
def beVal (bs : List ℕ) : ℕ := bs.foldl (fun a b => a * 256 + b % 256) 0

/-- Combine bytes little-endian (least significant first). -/
def leVal (bs : List ℕ) : ℕ := bs.foldr (fun b a => a * 256 + b % 256) 0

/-- `reader.read_u8()`. -/
def read_u8 (s : List ℕ) : Ret ℕ × List ℕ :=
  stBind (readN 1 s) fun bs s => (.ok (bs.headD 0 % 256), s)

/-- `reader.read_u16::<BigEndian>()`. -/
def read_u16_be (s : List ℕ) : Ret ℕ × List ℕ :=
  stBind (readN 2 s) fun bs s => (.ok (beVal bs), s)

/-- `reader.read_u16::<NativeEndian>()` — platform endianness; modelled
little-endian.  The only field read this way (`reserved`) is
informational and never used by framing. -/
def read_u16_ne (s : List ℕ) : Ret ℕ × List ℕ :=
  stBind (readN 2 s) fun bs s => (.ok (leVal bs), s)

/-- `reader.read_u32::<BigEndian>()`. -/
def read_u32_be (s : List ℕ) : Ret ℕ × List ℕ :=
  stBind (readN 4 s) fun bs s => (.ok (beVal bs), s)

/-- `reader.read_u32::<LittleEndian>()` (used only for the magic). -/
def read_u32_le (s : List ℕ) : Ret ℕ × List ℕ :=
  stBind (readN 4 s) fun bs s => (.ok (leVal bs), s)

/-- `reader.read_u64::<BigEndian>()`. -/
def read_u64_be (s : List ℕ) : Ret ℕ × List ℕ :=
  stBind (readN 8 s) fun bs s => (.ok (beVal bs), s)

/-! ## `src/message.rs`: section headers -/

/-- Section 0 header (`IndicatorSectionHeader`). -/
structure IndicatorSectionHeader where
  identifier : ℕ
  reserved : ℕ
  discipline : ℕ
  edition_number : ℕ
  total_length : ℕ
  deriving DecidableEq, Repr

/-- `IndicatorSectionHeader::read`. -/
def IndicatorSectionHeader.read (s : List ℕ) : Ret IndicatorSectionHeader × List ℕ :=
  stBind (read_u16_ne s) fun reserved s =>
  stBind (read_u8 s) fun discipline s =>
  stBind (read_u8 s) fun edition_number s =>
  if edition_number ≠ 2 then
    (.err (.InvalidData ("edition number must be 2 (grib2), but got " ++
      toString edition_number)), s)
  else
    stBind (read_u64_be s) fun total_length s =>
    (.ok ⟨0x47524942, reserved, discipline, edition_number, total_length⟩, s)

/-- Common header for sections 1–8 (`SectionHeader`). -/
structure SectionHeader where
  section_length : ℕ
  number_of_section : ℕ
  deriving DecidableEq, Repr

/-- `SectionHeader::read`: a big-endian `u32`, with the all-`0x37`
("7777") end sentinel recognized when `allow_end` is set; otherwise one
more byte holds the section number. -/
def SectionHeader.read (s : List ℕ) (allow_end : Bool) : Ret SectionHeader × List ℕ :=
  stBind (read_u32_be s) fun buf s =>
  if allow_end ∧ buf = 0x37373737 then
    (.ok ⟨4, 8⟩, s)
  else
    stBind (read_u8 s) fun n s =>
    (.ok ⟨buf, n⟩, s)

/-- `SectionHeader::ensure_section_number`. -/
def ensure_section_number (h : SectionHeader) (number : ℕ) (s : List ℕ) :
    Ret Unit × List ℕ :=
  if h.number_of_section ≠ number then
    (.err (.InvalidData ("number of section must be " ++ toString number ++
      ", but got " ++ toString h.number_of_section)), s)
  else
    (.ok (), s)

/-- Section 1 header (`IdentificationSectionHeader`). -/
structure IdentificationSectionHeader where
  section_length : ℕ
  centre : ℕ
  sub_centre : ℕ
  tables_version : ℕ
  local_tables_version : ℕ
  significance_of_reference_time : ℕ
  year : ℕ
  month : ℕ
  day : ℕ
  hour : ℕ
  minute : ℕ
  second : ℕ
  production_status_of_processed_data : ℕ
  type_of_processed_data : ℕ
  template_number : Option ℕ
  deriving DecidableEq, Repr

/-- `IdentificationSectionHeader::read`. -/
def IdentificationSectionHeader.read (header : SectionHeader) (s : List ℕ) :
    Ret IdentificationSectionHeader × List ℕ :=
  stBind (ensure_section_number header 1 s) fun _ s =>
  stBind (read_u16_be s) fun centre s =>
  stBind (read_u16_be s) fun sub_centre s =>
  stBind (read_u8 s) fun tables_version s =>
  stBind (read_u8 s) fun local_tables_version s =>
  stBind (read_u8 s) fun significance s =>
  stBind (read_u16_be s) fun year s =>
  stBind (read_u8 s) fun month s =>
  stBind (read_u8 s) fun day s =>
  stBind (read_u8 s) fun hour s =>
  stBind (read_u8 s) fun minute s =>
  stBind (read_u8 s) fun second s =>
  stBind (read_u8 s) fun production_status s =>
  stBind (read_u8 s) fun type_of_data s =>
  if header.section_length = 21 then
    (.ok ⟨header.section_length, centre, sub_centre, tables_version,
      local_tables_version, significance, year, month, day, hour, minute,
      second, production_status, type_of_data, none⟩, s)
  else
    stBind (read_u16_be s) fun template_number s =>
    (.ok ⟨header.section_length, centre, sub_centre, tables_version,
      local_tables_version, significance, year, month, day, hour, minute,
      second, production_status, type_of_data, some template_number⟩, s)

/-- `IdentificationSectionHeader::body_len`: `0` for the legacy length
21, otherwise the `u32` subtraction `section_length - 23` (which wraps
modulo `2^32` when the declared length is below 23). -/
def IdentificationSectionHeader.body_len (h : IdentificationSectionHeader) : ℕ :=
  if h.section_length = 21 then 0 else (h.section_length + (W32 - 23)) % W32

/-- Section 2 header (`LocalUseSectionHeader`). -/
structure LocalUseSectionHeader where
  section_length : ℕ
  deriving DecidableEq, Repr

/-- `LocalUseSectionHeader::read` (reads nothing beyond the common header). -/
def LocalUseSectionHeader.read (header : SectionHeader) (s : List ℕ) :
    Ret LocalUseSectionHeader × List ℕ :=
  stBind (ensure_section_number header 2 s) fun _ s =>
  (.ok ⟨header.section_length⟩, s)

/-- `LocalUseSectionHeader::body_len`: `section_length - 5` in `u32`. -/
def LocalUseSectionHeader.body_len (h : LocalUseSectionHeader) : ℕ :=
  (h.section_length + (W32 - 5)) % W32

/-- Section 3 header (`GridDefinitionSectionHeader`). -/
structure GridDefinitionSectionHeader where
  section_length : ℕ
  source_of_grid_definition : ℕ
  number_of_data_points : ℕ
  number_of_octects_for_number_of_points : ℕ
  interpretation_of_number_of_points : ℕ
  template_number : ℕ
  deriving DecidableEq, Repr

/-- `GridDefinitionSectionHeader::read`. -/
def GridDefinitionSectionHeader.read (header : SectionHeader) (s : List ℕ) :
    Ret GridDefinitionSectionHeader × List ℕ :=
  stBind (ensure_section_number header 3 s) fun _ s =>
  stBind (read_u8 s) fun source s =>
  stBind (read_u32_be s) fun ndp s =>
  stBind (read_u8 s) fun noct s =>
  stBind (read_u8 s) fun interp s =>
  stBind (read_u16_be s) fun template_number s =>
  (.ok ⟨header.section_length, source, ndp, noct, interp, template_number⟩, s)

/-- `GridDefinitionSectionHeader::body_len`: `section_length - 14` in `u32`. -/
def GridDefinitionSectionHeader.body_len (h : GridDefinitionSectionHeader) : ℕ :=
  (h.section_length + (W32 - 14)) % W32

/-- Section 4 header (`ProductDefinitionSectionHeader`). -/
structure ProductDefinitionSectionHeader where
  section_length : ℕ
  nv : ℕ
  template_number : ℕ
  deriving DecidableEq, Repr

/-- `ProductDefinitionSectionHeader::read`. -/
def ProductDefinitionSectionHeader.read (header : SectionHeader) (s : List ℕ) :
    Ret ProductDefinitionSectionHeader × List ℕ :=
  stBind (ensure_section_number header 4 s) fun _ s =>
  stBind (read_u16_be s) fun nv s =>
  stBind (read_u16_be s) fun template_number s =>
  (.ok ⟨header.section_length, nv, template_number⟩, s)

/-- `ProductDefinitionSectionHeader::body_len`: `section_length - 9` in `u32`. -/
def ProductDefinitionSectionHeader.body_len (h : ProductDefinitionSectionHeader) : ℕ :=
  (h.section_length + (W32 - 9)) % W32

/-- Section 5 header (`DataRepresentationSectionHeader`). -/
structure DataRepresentationSectionHeader where
  section_length : ℕ
  number_of_values : ℕ
  template_number : ℕ
  deriving DecidableEq, Repr

/-- `DataRepresentationSectionHeader::read`. -/
def DataRepresentationSectionHeader.read (header : SectionHeader) (s : List ℕ) :
    Ret DataRepresentationSectionHeader × List ℕ :=
  stBind (ensure_section_number header 5 s) fun _ s =>
  stBind (read_u32_be s) fun number_of_values s =>
  stBind (read_u16_be s) fun template_number s =>
  (.ok ⟨header.section_length, number_of_values, template_number⟩, s)

/-- `DataRepresentationSectionHeader::body_len`: `section_length - 11` in `u32`. -/
def DataRepresentationSectionHeader.body_len (h : DataRepresentationSectionHeader) : ℕ :=
  (h.section_length + (W32 - 11)) % W32

/-- Section 6 header (`BitmapSectionHeader`). -/
structure BitmapSectionHeader where
  section_length : ℕ
  bit_map_indicator : ℕ
  deriving DecidableEq, Repr

/-- `BitmapSectionHeader::read`. -/
def BitmapSectionHeader.read (header : SectionHeader) (s : List ℕ) :
    Ret BitmapSectionHeader × List ℕ :=
  stBind (ensure_section_number header 6 s) fun _ s =>
  stBind (read_u8 s) fun indicator s =>
  (.ok ⟨header.section_length, indicator⟩, s)

/-- `BitmapSectionHeader::body_len`: `section_length - (5 + 1)` in `u32`. -/
def BitmapSectionHeader.body_len (h : BitmapSectionHeader) : ℕ :=
  (h.section_length + (W32 - 6)) % W32

/-- Section 7 header (`DataSectionHeader`). -/
structure DataSectionHeader where
  section_length : ℕ
  deriving DecidableEq, Repr

/-- `DataSectionHeader::read` (checks the number only; no stream reads). -/
def DataSectionHeader.read (header : SectionHeader) (s : List ℕ) :
    Ret DataSectionHeader × List ℕ :=
  stBind (ensure_section_number header 7 s) fun _ s =>
  (.ok ⟨header.section_length⟩, s)

/-- `DataSectionHeader::body_len`: `section_length - 5` in `u32`. -/
def DataSectionHeader.body_len (h : DataSectionHeader) : ℕ :=
  (h.section_length + (W32 - 5)) % W32

/-! ## `src/templates/data_representation.rs` -/

/-- Template 5.200 (`DataRepresentationTemplate5_200`). -/
structure DataRepresentationTemplate5_200 where
  number_of_bits : ℕ
  mv : ℕ
  mvl : ℕ
  decimal_scale_factor : ℕ
  mvl_scaled_representative_values : List ℕ
  deriving DecidableEq, Repr

/-! ## `src/templates/data.rs`: run-length decoder (template 7.200) -/

/-- The inner `while` loop of `read_data_7_200` (lines 31–40): consume
continuation bytes (bytes whose value exceeds `mv`) while the budget
`rem = size - p` lasts, accumulating `run_length` and the multiplier `m`
in `u32` arithmetic.  Returns `(consumed, run_length, m, next)` where
`consumed` counts the continuation bytes (the `p += 1` executions) and
`next` is the byte the loop stopped on (`0`, its initialization value,
when the budget ran out without a terminating byte). -/
def contLoop (mv : ℕ) (s : List ℕ) (rem run m : ℕ) : Ret (ℕ × ℕ × ℕ × ℕ) × List ℕ :=
  match rem with
  | 0 => (.ok (0, run, m, 0), s)
  | rem' + 1 =>
    match read_u8 s with
    | (.ok next, s₁) =>
      if mv < next then
        match contLoop mv s₁ rem' ((run + (next - mv - 1) * m % W32) % W32)
            (m * (255 - mv) % W32) with
        | (.ok (c, run₂, m₂, next₂), s₂) => (.ok (c + 1, run₂, m₂, next₂), s₂)
        | (.err e, s₂) => (.err e, s₂)
        | (.panic, s₂) => (.panic, s₂)
      else
        (.ok (0, run, m, next), s₁)
    | (.err e, s₁) => (.err e, s₁)
    | (.panic, s₁) => (.panic, s₁)

/-- The outer `while` loop of `read_data_7_200` (lines 26–50): one
iteration per run.  `rem = size - p` is the remaining byte budget and
`lv` the current level byte.  Each iteration spends one budget unit on
the level byte (`p += 1`), runs `contLoop`, resolves the level to a
value (`None` for level 0, otherwise the `Vec` index
`mvl_scaled_representative_values[lv - 1]`, which panics when out of
bounds), pushes `run_length` copies, and continues with the terminating
byte as the next level. -/
def runsLoop (t : DataRepresentationTemplate5_200) (s : List ℕ) (rem lv : ℕ) :
    Ret (List (Option ℕ)) × List ℕ :=
  match rem with
  | 0 => (.ok [], s)
  | rem' + 1 =>
    match contLoop t.mv s rem' 1 1 with
    | (.ok (c, run, _, next), s₁) =>
      match lv with
      | 0 =>
        match runsLoop t s₁ (rem' - c) next with
        | (.ok vs, s₂) => (.ok (List.replicate run none ++ vs), s₂)
        | (.err e, s₂) => (.err e, s₂)
        | (.panic, s₂) => (.panic, s₂)
      | k + 1 =>
        match t.mvl_scaled_representative_values.get? k with
        | none => (.panic, s₁)
        | some v =>
          match runsLoop t s₁ (rem' - c) next with
          | (.ok vs, s₂) => (.ok (List.replicate run (some v) ++ vs), s₂)
          | (.err e, s₂) => (.err e, s₂)
          | (.panic, s₂) => (.panic, s₂)
    | (.err e, s₁) => (.err e, s₁)
    | (.panic, s₁) => (.panic, s₁)
  termination_by rem
  decreasing_by omega

/-- `read_data_7_200` (template 7.200, run length packing with level
values): refuses `number_of_bits ≠ 8`, then reads the initial level byte
before consulting `size`, then runs the run-length loop.  `drs` is used
by the source only as a `Vec::with_capacity` hint. -/
def read_data_7_200 (s : List ℕ) (size : ℕ) (drs : DataRepresentationSectionHeader)
    (t : DataRepresentationTemplate5_200) : Ret (List (Option ℕ)) × List ℕ :=
  if t.number_of_bits ≠ 8 then
    (.err (.UnsupportedData ("Only supports 8 bits in our 7.200 implementation, but got "
      ++ toString t.number_of_bits)), s)
  else
    stBind (read_u8 s) fun lv s₁ =>
    runsLoop t s₁ size lv

/-! ## `src/reader.rs`: the message reader state machine

Callbacks (the `handle_*` trait methods) receive the parsed header and a
bounded sub-reader (`std::io::Take`).  A callback is modelled by the
number of bytes it reads from that sub-reader, as a function of the
parsed header and of the bytes visible through the bound; the defaults
(`defaultHandlers`) read nothing, like the do-nothing trait defaults.  A
callback that returns `Err` aborts the whole decode via `?` and is
outside the framing claims, which speak about callbacks that return. -/

/-- The caller-supplied callbacks of the `MessageReader` trait, each
modelled by how many bytes it consumes from its bounded sub-reader.
`handle_indicator` receives no reader and cannot affect framing, so it
has no field here. -/
structure Handlers where
  onIdentification : IdentificationSectionHeader → List ℕ → ℕ
  onLocalUse : LocalUseSectionHeader → List ℕ → ℕ
  onGridDefinition : GridDefinitionSectionHeader → List ℕ → ℕ
  onProductDefinition : ProductDefinitionSectionHeader → List ℕ → ℕ
  onDataRepresentation : DataRepresentationSectionHeader → List ℕ → ℕ
  onBitmap : BitmapSectionHeader → List ℕ → ℕ
  onData : DataSectionHeader → List ℕ → ℕ

/-- The default do-nothing callbacks of the `MessageReader` trait. -/
def defaultHandlers : Handlers :=
  ⟨fun _ _ => 0, fun _ _ => 0, fun _ _ => 0, fun _ _ => 0,
   fun _ _ => 0, fun _ _ => 0, fun _ _ => 0⟩

/-- Callbacks that read their whole bounded view (the other extreme
from `defaultHandlers`). -/
def greedyHandlers : Handlers :=
  ⟨fun _ l => l.length, fun _ l => l.length, fun _ l => l.length,
   fun _ l => l.length, fun _ l => l.length, fun _ l => l.length,
   fun _ l => l.length⟩

/-- The take-then-drain discipline around every callback:
`reader.take(bound)` hands the callback a view of at most `bound` bytes;
the callback reads `k` bytes (effectively `min k (min bound s.length)`);
`std::io::copy(&mut reader, &mut std::io::sink())` then discards
whatever is left in the bound (stopping early at end of stream, which
`copy` does not treat as an error). -/
def takeDrain (bound k : ℕ) (s : List ℕ) : List ℕ :=
  let c := min k (min bound s.length)
  let s₁ := s.drop c
  s₁.drop (min (bound - c) s₁.length)

/-- Lines 94–99: read the identification section and run its callback
under take-then-drain.  (`reader.rs` calls `body_len` through the alias
`template_size`.) -/
def identificationStep (h : Handlers) (hdr : SectionHeader) (s : List ℕ) :
    Ret Unit × List ℕ :=
  stBind (IdentificationSectionHeader.read hdr s) fun ids s₁ =>
  (.ok (), takeDrain ids.body_len
    (h.onIdentification ids (s₁.take ids.body_len)) s₁)

/-- Lines 105–111: the local use section with take-then-drain
(`reader.rs` calls `body_len` through the alias `body_size`). -/
def localUseStep (h : Handlers) (hdr : SectionHeader) (s : List ℕ) :
    Ret Unit × List ℕ :=
  stBind (LocalUseSectionHeader.read hdr s) fun loc s₁ =>
  (.ok (), takeDrain loc.body_len (h.onLocalUse loc (s₁.take loc.body_len)) s₁)

/-- Lines 117–122: the grid definition section with take-then-drain. -/
def gridDefinitionStep (h : Handlers) (hdr : SectionHeader) (s : List ℕ) :
    Ret Unit × List ℕ :=
  stBind (GridDefinitionSectionHeader.read hdr s) fun gds s₁ =>
  (.ok (), takeDrain gds.body_len
    (h.onGridDefinition gds (s₁.take gds.body_len)) s₁)

/-- Lines 128–133: the product definition section with take-then-drain. -/
def productDefinitionStep (h : Handlers) (hdr : SectionHeader) (s : List ℕ) :
    Ret Unit × List ℕ :=
  stBind (ProductDefinitionSectionHeader.read hdr s) fun pds s₁ =>
  (.ok (), takeDrain pds.body_len
    (h.onProductDefinition pds (s₁.take pds.body_len)) s₁)

/-- Lines 136–142: the data representation section with take-then-drain. -/
def dataRepresentationStep (h : Handlers) (hdr : SectionHeader) (s : List ℕ) :
    Ret Unit × List ℕ :=
  stBind (DataRepresentationSectionHeader.read hdr s) fun drs s₁ =>
  (.ok (), takeDrain drs.body_len
    (h.onDataRepresentation drs (s₁.take drs.body_len)) s₁)

/-- Lines 145–150: the bitmap section with take-then-drain. -/
def bitmapStep (h : Handlers) (hdr : SectionHeader) (s : List ℕ) :
    Ret Unit × List ℕ :=
  stBind (BitmapSectionHeader.read hdr s) fun bitmap s₁ =>
  (.ok (), takeDrain bitmap.body_len
    (h.onBitmap bitmap (s₁.take bitmap.body_len)) s₁)

/-- Lines 153–158: the data section with take-then-drain. -/
def dataStep (h : Handlers) (hdr : SectionHeader) (s : List ℕ) :
    Ret Unit × List ℕ :=
  stBind (DataSectionHeader.read hdr s) fun data s₁ =>
  (.ok (), takeDrain data.body_len (h.onData data (s₁.take data.body_len)) s₁)

/-! The loops of `read_next_message` (lines 103–169), written as four
mutually recursive stages.  `fuel` bounds the number of loop iterations;
every iteration must consume stream bytes through successful header
reads, so any fuel exceeding the stream length is enough, and the
fuel-exhaustion branch (which yields `.panic`) is unreachable from
`read_next_message`. -/

mutual

/-- Top of the labelled `'outer` loop (lines 103–114): an optional local
use section (number 2), then the grid definition stage. -/
def outerLoop (h : Handlers) (fuel : ℕ) (hdr : SectionHeader) (s : List ℕ) :
    Ret Unit × List ℕ :=
  match fuel with
  | 0 => (.panic, s)
  | fuel + 1 =>
    if hdr.number_of_section = 2 then
      stBind (localUseStep h hdr s) fun _ s₁ =>
      stBind (SectionHeader.read s₁ false) fun hdr₁ s₂ =>
      gridStage h fuel hdr₁ s₂
    else
      gridStage h fuel hdr s
  termination_by (fuel, 2)

/-- Lines 117–124: the current header must open a grid definition
section; read it, then enter the inner loop on the following header. -/
def gridStage (h : Handlers) (fuel : ℕ) (hdr : SectionHeader) (s : List ℕ) :
    Ret Unit × List ℕ :=
  stBind (gridDefinitionStep h hdr s) fun _ s₁ =>
  stBind (SectionHeader.read s₁ false) fun hdr₁ s₂ =>
  innerLoop h fuel hdr₁ s₂
  termination_by (fuel, 1)

/-- The inner loop (lines 126–168): product definition, data
representation, bitmap and data sections, then the next header (end
sentinel allowed) is dispatched. -/
def innerLoop (h : Handlers) (fuel : ℕ) (hdr : SectionHeader) (s : List ℕ) :
    Ret Unit × List ℕ :=
  match fuel with
  | 0 => (.panic, s)
  | fuel + 1 =>
    stBind (productDefinitionStep h hdr s) fun _ s₁ =>
    stBind (SectionHeader.read s₁ false) fun hdr₅ s₂ =>
    stBind (dataRepresentationStep h hdr₅ s₂) fun _ s₃ =>
    stBind (SectionHeader.read s₃ false) fun hdr₆ s₄ =>
    stBind (bitmapStep h hdr₆ s₄) fun _ s₅ =>
    stBind (SectionHeader.read s₅ false) fun hdr₇ s₆ =>
    stBind (dataStep h hdr₇ s₆) fun _ s₇ =>
    stBind (SectionHeader.read s₇ true) fun nextHdr s₈ =>
    afterDataDispatch h fuel nextHdr s₈
  termination_by (fuel, 0)

/-- The dispatch on the section header read after a data section (the
`match` of lines 162–167, written as an if-chain over the disjoint
cases): 2 or 3 break the inner loop back to the outer stage, 4
continues the inner loop, 8 completes the message, anything else is the
fatal "invalid section number" format error. -/
def afterDataDispatch (h : Handlers) (fuel : ℕ) (hdr : SectionHeader) (s : List ℕ) :
    Ret Unit × List ℕ :=
  if hdr.number_of_section = 2 ∨ hdr.number_of_section = 3 then
    outerLoop h fuel hdr s
  else if hdr.number_of_section = 4 then
    innerLoop h fuel hdr s
  else if hdr.number_of_section = 8 then
    (.ok (), s)
  else
    (.err (.InvalidData "invalid section number"), s)
  termination_by (fuel, 3)

end

/-- Lift the loop outcome to the `Result<Option<()>>` of
`read_next_message`: loop success is `Ok(Some(()))`. -/
def liftMsg (x : Ret Unit × List ℕ) : Ret (Option Unit) × List ℕ :=
  match x with
  | (.ok (), s) => (.ok (some ()), s)
  | (.err e, s) => (.err e, s)
  | (.panic, s) => (.panic, s)

/-- `MessageReader::read_next_message` (lines 77–172): the little-endian
magic read whose end-of-file means "no more messages" (source text
quotes GRIB in single quotes in its error message), the indicator
section (whose callback takes no reader), the identification section
with take-then-drain, and the section loops. -/
def read_next_message (h : Handlers) (s : List ℕ) : Ret (Option Unit) × List ℕ :=
  match read_u32_le s with
  | (.err _, _) => (.ok none, s)
  | (.panic, s₁) => (.panic, s₁)
  | (.ok magic, s₁) =>
    if magic = 0x42495247 then
      liftMsg (
        stBind (IndicatorSectionHeader.read s₁) fun _ s₂ =>
        stBind (SectionHeader.read s₂ false) fun idsHdr s₃ =>
        stBind (identificationStep h idsHdr s₃) fun _ s₄ =>
        stBind (SectionHeader.read s₄ false) fun hdr s₅ =>
        outerLoop h (s₅.length + 1) hdr s₅)
    else
      (.err (.InvalidData "message identifier must be GRIB"), s₁)

/-! ## Specification-side definitions

These two definitions follow the wording of the specification (not the
source); the theorems below compare the embedded source against them. -/

/-- The run-length extension described by the spec (section 4.4): "each
such continuation byte `b` extends the run length by `(b − mv − 1) * m`
where `m` starts at 1 and is multiplied by `(255 − mv)` after every
continuation byte consumed", in exact (unbounded) arithmetic.  The total
run length of a run whose continuation bytes are `cont` is
`1 + specRun mv 1 cont`. -/
def specRun (mv m : ℕ) : List ℕ → ℕ
  | [] => 0
  | b :: bs => (b - mv - 1) * m + specRun mv (m * (255 - mv)) bs

/-- The decoded element for a level, as described by the spec: "level 0
maps to `None` (missing), level `k>0` maps to
`Some(drs_template.mvl_scaled_representative_values[k-1])`".  Total
description of the in-bounds lookup (the source's `Vec` index panics out
of bounds). -/
def levelValue (table : List ℕ) : ℕ → Option ℕ
  | 0 => none
  | k + 1 => some (table.getD k 0)

/-! ## Helper lemmas -/

lemma readN_of_le {n : ℕ} {s : List ℕ} (h : n ≤ s.length) :
    readN n s = (.ok (s.take n), s.drop n) := by
  simp [readN, Nat.not_lt.mpr h]

lemma specRun_eq_mul (mv : ℕ) (bs : List ℕ) :
    ∀ m, specRun mv m bs = m * specRun mv 1 bs := by
  induction bs with
  | nil => intro m; simp [specRun]
  | cons b bs ih =>
    intro m
    rw [specRun, specRun, ih (m * (255 - mv)), ih (1 * (255 - mv))]
    ring

lemma takeDrain_eq (bound k : ℕ) (s : List ℕ) :
    takeDrain bound k s = s.drop (min bound s.length) := by
  simp only [takeDrain, List.drop_drop, List.length_drop]
  congr 1
  omega

/-- `u32` subtraction of a constant `k` from an in-range value, written
as wraparound: it agrees with exact subtraction when no underflow occurs. -/
lemma wrap_sub_eq {L k : ℕ} (hk : k ≤ L) (hL : L < W32) :
    (L + (W32 - k)) % W32 = L - k := by
  simp only [W32] at *
  omega

lemma liftMsg_ne_ok_none (x : Ret Unit × List ℕ) : (liftMsg x).1 ≠ .ok none := by
  rcases x with ⟨r, s⟩
  cases r with
  | ok a => cases a; simp [liftMsg]
  | err e => simp [liftMsg]
  | panic => simp [liftMsg]

@[simp] lemma stBind_ok {α β : Type} (a : α) (s : List ℕ)
    (f : α → List ℕ → Ret β × List ℕ) : stBind (.ok a, s) f = f a s := rfl

@[simp] lemma stBind_err {α β : Type} (e : Error) (s : List ℕ)
    (f : α → List ℕ → Ret β × List ℕ) : stBind (.err e, s) f = (.err e, s) := rfl

@[simp] lemma stBind_panic {α β : Type} (s : List ℕ)
    (f : α → List ℕ → Ret β × List ℕ) : stBind (.panic, s) f = (.panic, s) := rfl

lemma read_u8_ok {s : List ℕ} (h : 1 ≤ s.length) :
    ∃ v, read_u8 s = (.ok v, s.drop 1) := by
  rw [read_u8, readN_of_le h]; exact ⟨_, rfl⟩

lemma read_u16_be_ok {s : List ℕ} (h : 2 ≤ s.length) :
    ∃ v, read_u16_be s = (.ok v, s.drop 2) := by
  rw [read_u16_be, readN_of_le h]; exact ⟨_, rfl⟩

lemma read_u16_ne_ok {s : List ℕ} (h : 2 ≤ s.length) :
    ∃ v, read_u16_ne s = (.ok v, s.drop 2) := by
  rw [read_u16_ne, readN_of_le h]; exact ⟨_, rfl⟩

lemma read_u32_be_ok {s : List ℕ} (h : 4 ≤ s.length) :
    ∃ v, read_u32_be s = (.ok v, s.drop 4) := by
  rw [read_u32_be, readN_of_le h]; exact ⟨_, rfl⟩

lemma read_u64_be_ok {s : List ℕ} (h : 8 ≤ s.length) :
    ∃ v, read_u64_be s = (.ok v, s.drop 8) := by
  rw [read_u64_be, readN_of_le h]; exact ⟨_, rfl⟩

lemma takeDrain_drop {bound n k : ℕ} {s : List ℕ}
    (hb : n + bound ≤ s.length) :
    takeDrain bound k (s.drop n) = s.drop (n + bound) := by
  rw [takeDrain_eq, List.length_drop, List.drop_drop]
  congr 1
  omega

lemma productDefinitionStep_drop (h : Handlers) (hdr : SectionHeader) (s : List ℕ)
    (hn : hdr.number_of_section = 4) (hl : 9 ≤ hdr.section_length)
    (hw : hdr.section_length < W32) (hs : hdr.section_length - 5 ≤ s.length) :
    productDefinitionStep h hdr s = (.ok (), s.drop (hdr.section_length - 5)) := by
  obtain ⟨v₁, e₁⟩ := read_u16_be_ok (s := s) (by omega)
  obtain ⟨v₂, e₂⟩ := read_u16_be_ok (s := s.drop 2) (by simp; omega)
  have hb : (⟨hdr.section_length, v₁, v₂⟩ : ProductDefinitionSectionHeader).body_len =
      hdr.section_length - 9 := by
    show (hdr.section_length + (W32 - 9)) % W32 = hdr.section_length - 9
    exact wrap_sub_eq (by omega) hw
  rw [productDefinitionStep, ProductDefinitionSectionHeader.read, ensure_section_number, hn]
  norm_num
  simp only [e₁, stBind_ok, e₂, List.drop_drop]
  norm_num [hb]
  have ht : takeDrain (hdr.section_length - 9)
      (h.onProductDefinition ⟨hdr.section_length, v₁, v₂⟩
        (List.take (hdr.section_length - 9) (List.drop 4 s)))
      (List.drop 4 s) = s.drop (4 + (hdr.section_length - 9)) :=
    takeDrain_drop (show 4 + (hdr.section_length - 9) ≤ s.length by omega)
  rw [ht, show 4 + (hdr.section_length - 9) = hdr.section_length - 5 from by omega]

lemma localUseStep_drop (h : Handlers) (hdr : SectionHeader) (s : List ℕ)
    (hn : hdr.number_of_section = 2) (hl : 5 ≤ hdr.section_length)
    (hw : hdr.section_length < W32) (hs : hdr.section_length - 5 ≤ s.length) :
    localUseStep h hdr s = (.ok (), s.drop (hdr.section_length - 5)) := by
  have hb : (⟨hdr.section_length⟩ : LocalUseSectionHeader).body_len =
      hdr.section_length - 5 := by
    show (hdr.section_length + (W32 - 5)) % W32 = hdr.section_length - 5
    exact wrap_sub_eq (by omega) hw
  rw [localUseStep, LocalUseSectionHeader.read, ensure_section_number, hn]
  norm_num [hb]
  rw [takeDrain_eq, min_eq_left hs]

lemma dataStep_drop (h : Handlers) (hdr : SectionHeader) (s : List ℕ)
    (hn : hdr.number_of_section = 7) (hl : 5 ≤ hdr.section_length)
    (hw : hdr.section_length < W32) (hs : hdr.section_length - 5 ≤ s.length) :
    dataStep h hdr s = (.ok (), s.drop (hdr.section_length - 5)) := by
  have hb : (⟨hdr.section_length⟩ : DataSectionHeader).body_len =
      hdr.section_length - 5 := by
    show (hdr.section_length + (W32 - 5)) % W32 = hdr.section_length - 5
    exact wrap_sub_eq (by omega) hw
  rw [dataStep, DataSectionHeader.read, ensure_section_number, hn]
  norm_num [hb]
  rw [takeDrain_eq, min_eq_left hs]

lemma bitmapStep_drop (h : Handlers) (hdr : SectionHeader) (s : List ℕ)
    (hn : hdr.number_of_section = 6) (hl : 6 ≤ hdr.section_length)
    (hw : hdr.section_length < W32) (hs : hdr.section_length - 5 ≤ s.length) :
    bitmapStep h hdr s = (.ok (), s.drop (hdr.section_length - 5)) := by
  obtain ⟨v₁, e₁⟩ := read_u8_ok (s := s) (by omega)
  have hb : (⟨hdr.section_length, v₁⟩ : BitmapSectionHeader).body_len =
      hdr.section_length - 6 := by
    show (hdr.section_length + (W32 - 6)) % W32 = hdr.section_length - 6
    exact wrap_sub_eq (by omega) hw
  rw [bitmapStep, BitmapSectionHeader.read, ensure_section_number, hn]
  norm_num
  simp only [e₁, stBind_ok]
  norm_num [hb]
  rw [← List.drop_one]
  have ht : takeDrain (hdr.section_length - 6)
      (h.onBitmap ⟨hdr.section_length, v₁⟩
        (List.take (hdr.section_length - 6) (List.drop 1 s)))
      (List.drop 1 s) = s.drop (1 + (hdr.section_length - 6)) :=
    takeDrain_drop (show 1 + (hdr.section_length - 6) ≤ s.length by omega)
  rw [ht, show 1 + (hdr.section_length - 6) = hdr.section_length - 5 from by omega]

lemma dataRepresentationStep_drop (h : Handlers) (hdr : SectionHeader) (s : List ℕ)
    (hn : hdr.number_of_section = 5) (hl : 11 ≤ hdr.section_length)
    (hw : hdr.section_length < W32) (hs : hdr.section_length - 5 ≤ s.length) :
    dataRepresentationStep h hdr s = (.ok (), s.drop (hdr.section_length - 5)) := by
  obtain ⟨v₁, e₁⟩ := read_u32_be_ok (s := s) (by omega)
  obtain ⟨v₂, e₂⟩ := read_u16_be_ok (s := s.drop 4) (by simp; omega)
  have hb : (⟨hdr.section_length, v₁, v₂⟩ : DataRepresentationSectionHeader).body_len =
      hdr.section_length - 11 := by
    show (hdr.section_length + (W32 - 11)) % W32 = hdr.section_length - 11
    exact wrap_sub_eq (by omega) hw
  rw [dataRepresentationStep, DataRepresentationSectionHeader.read,
    ensure_section_number, hn]
  norm_num
  simp only [e₁, stBind_ok, e₂, List.drop_drop]
  norm_num [hb]
  have ht : takeDrain (hdr.section_length - 11)
      (h.onDataRepresentation ⟨hdr.section_length, v₁, v₂⟩
        (List.take (hdr.section_length - 11) (List.drop 6 s)))
      (List.drop 6 s) = s.drop (6 + (hdr.section_length - 11)) :=
    takeDrain_drop (show 6 + (hdr.section_length - 11) ≤ s.length by omega)
  rw [ht, show 6 + (hdr.section_length - 11) = hdr.section_length - 5 from by omega]

lemma gridDefinitionStep_drop (h : Handlers) (hdr : SectionHeader) (s : List ℕ)
    (hn : hdr.number_of_section = 3) (hl : 14 ≤ hdr.section_length)
    (hw : hdr.section_length < W32) (hs : hdr.section_length - 5 ≤ s.length) :
    gridDefinitionStep h hdr s = (.ok (), s.drop (hdr.section_length - 5)) := by
  obtain ⟨v₁, e₁⟩ := read_u8_ok (s := s) (by omega)
  obtain ⟨v₂, e₂⟩ := read_u32_be_ok (s := s.drop 1) (by simp; omega)
  obtain ⟨v₃, e₃⟩ := read_u8_ok (s := s.drop 5) (by simp; omega)
  obtain ⟨v₄, e₄⟩ := read_u8_ok (s := s.drop 6) (by simp; omega)
  obtain ⟨v₅, e₅⟩ := read_u16_be_ok (s := s.drop 7) (by simp; omega)
  have hb : (⟨hdr.section_length, v₁, v₂, v₃, v₄, v₅⟩ :
      GridDefinitionSectionHeader).body_len = hdr.section_length - 14 := by
    show (hdr.section_length + (W32 - 14)) % W32 = hdr.section_length - 14
    exact wrap_sub_eq (by omega) hw
  rw [gridDefinitionStep, GridDefinitionSectionHeader.read, ensure_section_number, hn]
  norm_num
  simp only [e₁, stBind_ok, e₂, e₃, e₄, e₅, List.drop_drop]
  norm_num [hb]
  have ht : takeDrain (hdr.section_length - 14)
      (h.onGridDefinition ⟨hdr.section_length, v₁, v₂, v₃, v₄, v₅⟩
        (List.take (hdr.section_length - 14) (List.drop 9 s)))
      (List.drop 9 s) = s.drop (9 + (hdr.section_length - 14)) :=
    takeDrain_drop (show 9 + (hdr.section_length - 14) ≤ s.length by omega)
  rw [ht, show 9 + (hdr.section_length - 14) = hdr.section_length - 5 from by omega]

lemma identificationStep_drop (h : Handlers) (hdr : SectionHeader) (s : List ℕ)
    (hn : hdr.number_of_section = 1)
    (hl : hdr.section_length = 21 ∨ 23 ≤ hdr.section_length)
    (hw : hdr.section_length < W32) (hs : hdr.section_length - 5 ≤ s.length) :
    identificationStep h hdr s = (.ok (), s.drop (hdr.section_length - 5)) := by
  have h16 : 16 ≤ s.length := by omega
  obtain ⟨v₁, e₁⟩ := read_u16_be_ok (s := s) (by omega)
  obtain ⟨v₂, e₂⟩ := read_u16_be_ok (s := s.drop 2) (by simp; omega)
  obtain ⟨v₃, e₃⟩ := read_u8_ok (s := s.drop 4) (by simp; omega)
  obtain ⟨v₄, e₄⟩ := read_u8_ok (s := s.drop 5) (by simp; omega)
  obtain ⟨v₅, e₅⟩ := read_u8_ok (s := s.drop 6) (by simp; omega)
  obtain ⟨v₆, e₆⟩ := read_u16_be_ok (s := s.drop 7) (by simp; omega)
  obtain ⟨v₇, e₇⟩ := read_u8_ok (s := s.drop 9) (by simp; omega)
  obtain ⟨v₈, e₈⟩ := read_u8_ok (s := s.drop 10) (by simp; omega)
  obtain ⟨v₉, e₉⟩ := read_u8_ok (s := s.drop 11) (by simp; omega)
  obtain ⟨v₁₀, e₁₀⟩ := read_u8_ok (s := s.drop 12) (by simp; omega)
  obtain ⟨v₁₁, e₁₁⟩ := read_u8_ok (s := s.drop 13) (by simp; omega)
  obtain ⟨v₁₂, e₁₂⟩ := read_u8_ok (s := s.drop 14) (by simp; omega)
  obtain ⟨v₁₃, e₁₃⟩ := read_u8_ok (s := s.drop 15) (by simp; omega)
  rw [identificationStep, IdentificationSectionHeader.read, ensure_section_number, hn]
  norm_num
  rcases hl with h21 | h23
  · simp only [e₁, stBind_ok, e₂, e₃, e₄, e₅, e₆, e₇, e₈, e₉, e₁₀, e₁₁, e₁₂, e₁₃,
      List.drop_drop, h21, if_pos]
    rw [IdentificationSectionHeader.body_len]
    norm_num [takeDrain_eq, h21]
  · have hne : hdr.section_length ≠ 21 := by omega
    obtain ⟨v₁₄, e₁₄⟩ := read_u16_be_ok (s := s.drop 16) (by simp; omega)
    simp only [e₁, stBind_ok, e₂, e₃, e₄, e₅, e₆, e₇, e₈, e₉, e₁₀, e₁₁, e₁₂, e₁₃,
      List.drop_drop, if_neg hne, e₁₄]
    rw [IdentificationSectionHeader.body_len]
    rw [if_neg hne]
    rw [takeDrain_eq, List.length_drop,
      show (hdr.section_length + (W32 - 23)) % W32 = hdr.section_length - 23 from
        wrap_sub_eq (by omega) hw]
    rw [show min (hdr.section_length - 23) (s.length - 18) =
        hdr.section_length - 23 from by omega]
    rw [List.drop_drop,
      show 16 + 2 + (hdr.section_length - 23) = hdr.section_length - 5 from by omega]

lemma stBind_congr {α β : Type} {x : Ret α × List ℕ}
    {f₁ f₂ : α → List ℕ → Ret β × List ℕ}
    (hf : ∀ a s, f₁ a s = f₂ a s) : stBind x f₁ = stBind x f₂ := by
  rcases x with ⟨r, s⟩
  cases r <;> simp [hf]

lemma identificationStep_handlers (h₁ h₂ : Handlers) (hdr : SectionHeader)
    (s : List ℕ) : identificationStep h₁ hdr s = identificationStep h₂ hdr s := by
  rw [identificationStep, identificationStep]
  rcases IdentificationSectionHeader.read hdr s with ⟨r, s₁⟩
  cases r <;> simp [takeDrain_eq]

lemma localUseStep_handlers (h₁ h₂ : Handlers) (hdr : SectionHeader)
    (s : List ℕ) : localUseStep h₁ hdr s = localUseStep h₂ hdr s := by
  rw [localUseStep, localUseStep]
  rcases LocalUseSectionHeader.read hdr s with ⟨r, s₁⟩
  cases r <;> simp [takeDrain_eq]

lemma gridDefinitionStep_handlers (h₁ h₂ : Handlers) (hdr : SectionHeader)
    (s : List ℕ) : gridDefinitionStep h₁ hdr s = gridDefinitionStep h₂ hdr s := by
  rw [gridDefinitionStep, gridDefinitionStep]
  rcases GridDefinitionSectionHeader.read hdr s with ⟨r, s₁⟩
  cases r <;> simp [takeDrain_eq]

lemma productDefinitionStep_handlers (h₁ h₂ : Handlers) (hdr : SectionHeader)
    (s : List ℕ) : productDefinitionStep h₁ hdr s = productDefinitionStep h₂ hdr s := by
  rw [productDefinitionStep, productDefinitionStep]
  rcases ProductDefinitionSectionHeader.read hdr s with ⟨r, s₁⟩
  cases r <;> simp [takeDrain_eq]

lemma dataRepresentationStep_handlers (h₁ h₂ : Handlers) (hdr : SectionHeader)
    (s : List ℕ) : dataRepresentationStep h₁ hdr s = dataRepresentationStep h₂ hdr s := by
  rw [dataRepresentationStep, dataRepresentationStep]
  rcases DataRepresentationSectionHeader.read hdr s with ⟨r, s₁⟩
  cases r <;> simp [takeDrain_eq]

lemma bitmapStep_handlers (h₁ h₂ : Handlers) (hdr : SectionHeader)
    (s : List ℕ) : bitmapStep h₁ hdr s = bitmapStep h₂ hdr s := by
  rw [bitmapStep, bitmapStep]
  rcases BitmapSectionHeader.read hdr s with ⟨r, s₁⟩
  cases r <;> simp [takeDrain_eq]

lemma dataStep_handlers (h₁ h₂ : Handlers) (hdr : SectionHeader)
    (s : List ℕ) : dataStep h₁ hdr s = dataStep h₂ hdr s := by
  rw [dataStep, dataStep]
  rcases DataSectionHeader.read hdr s with ⟨r, s₁⟩
  cases r <;> simp [takeDrain_eq]

lemma loops_handler_independent (h₁ h₂ : Handlers) : ∀ fuel : ℕ,
    (∀ hdr s, innerLoop h₁ fuel hdr s = innerLoop h₂ fuel hdr s) ∧
    (∀ hdr s, gridStage h₁ fuel hdr s = gridStage h₂ fuel hdr s) ∧
    (∀ hdr s, outerLoop h₁ fuel hdr s = outerLoop h₂ fuel hdr s) ∧
    (∀ hdr s, afterDataDispatch h₁ fuel hdr s = afterDataDispatch h₂ fuel hdr s) := by
  intro fuel
  induction fuel with
  | zero =>
    have hinner : ∀ hdr s, innerLoop h₁ 0 hdr s = innerLoop h₂ 0 hdr s := by
      intro hdr s
      rw [innerLoop, innerLoop]
    have houter : ∀ hdr s, outerLoop h₁ 0 hdr s = outerLoop h₂ 0 hdr s := by
      intro hdr s
      rw [outerLoop, outerLoop]
    have hgrid : ∀ hdr s, gridStage h₁ 0 hdr s = gridStage h₂ 0 hdr s := by
      intro hdr s
      rw [gridStage, gridStage, gridDefinitionStep_handlers h₁ h₂ hdr s]
      exact stBind_congr fun _ s₁ => stBind_congr fun hdr₁ s₂ => hinner hdr₁ s₂
    have hafter : ∀ hdr s,
        afterDataDispatch h₁ 0 hdr s = afterDataDispatch h₂ 0 hdr s := by
      intro hdr s
      rw [afterDataDispatch, afterDataDispatch]
      split_ifs with hc1 hc2 hc3
      · exact houter hdr s
      · exact hinner hdr s
      · rfl
      · rfl
    exact ⟨hinner, hgrid, houter, hafter⟩
  | succ g ih =>
    have hinner : ∀ hdr s,
        innerLoop h₁ (g + 1) hdr s = innerLoop h₂ (g + 1) hdr s := by
      intro hdr s
      rw [innerLoop, innerLoop, productDefinitionStep_handlers h₁ h₂ hdr s]
      refine stBind_congr fun _ s₁ => stBind_congr fun hdr₅ s₂ => ?_
      rw [dataRepresentationStep_handlers h₁ h₂ hdr₅ s₂]
      refine stBind_congr fun _ s₃ => stBind_congr fun hdr₆ s₄ => ?_
      rw [bitmapStep_handlers h₁ h₂ hdr₆ s₄]
      refine stBind_congr fun _ s₅ => stBind_congr fun hdr₇ s₆ => ?_
      rw [dataStep_handlers h₁ h₂ hdr₇ s₆]
      refine stBind_congr fun _ s₇ => stBind_congr fun nh s₈ => ?_
      exact ih.2.2.2 nh s₈
    have hgrid : ∀ hdr s,
        gridStage h₁ (g + 1) hdr s = gridStage h₂ (g + 1) hdr s := by
      intro hdr s
      rw [gridStage, gridStage, gridDefinitionStep_handlers h₁ h₂ hdr s]
      exact stBind_congr fun _ s₁ => stBind_congr fun hdr₁ s₂ => hinner hdr₁ s₂
    have houter : ∀ hdr s,
        outerLoop h₁ (g + 1) hdr s = outerLoop h₂ (g + 1) hdr s := by
      intro hdr s
      rw [outerLoop, outerLoop]
      split_ifs with hc
      · rw [localUseStep_handlers h₁ h₂ hdr s]
        exact stBind_congr fun _ s₁ => stBind_congr fun hdr₁ s₂ => ih.2.1 hdr₁ s₂
      · exact ih.2.1 hdr s
    have hafter : ∀ hdr s,
        afterDataDispatch h₁ (g + 1) hdr s = afterDataDispatch h₂ (g + 1) hdr s := by
      intro hdr s
      rw [afterDataDispatch, afterDataDispatch]
      split_ifs with hc1 hc2 hc3
      · exact houter hdr s
      · exact hinner hdr s
      · rfl
      · rfl
    exact ⟨hinner, hgrid, houter, hafter⟩

lemma read_next_message_handlers (h₁ h₂ : Handlers) (s : List ℕ) :
    read_next_message h₁ s = read_next_message h₂ s := by
  rw [read_next_message, read_next_message]
  rcases read_u32_le s with ⟨r, s₁⟩
  cases r with
  | ok magic =>
    dsimp only
    split_ifs with hmg
    · refine congrArg liftMsg ?_
      refine stBind_congr fun _ s₂ => stBind_congr fun idsHdr s₃ => ?_
      rw [identificationStep_handlers h₁ h₂ idsHdr s₃]
      refine stBind_congr fun _ s₄ => stBind_congr fun hdr s₅ => ?_
      exact (loops_handler_independent h₁ h₂ (s₅.length + 1)).2.2.1 hdr s₅
    · rfl
  | err e => rfl
  | panic => rfl

lemma mod_eq_of_cast {a b : ℕ} (h : (a : ZMod W32) = (b : ZMod W32)) :
    a % W32 = b % W32 :=
  (ZMod.natCast_eq_natCast_iff a b W32).mp h

lemma contLoop_run_spec (mv term : ℕ) (rest : List ℕ) :
    ∀ (cont : List ℕ) (rem run m : ℕ), cont.length < rem →
      (∀ b ∈ cont, mv < b ∧ b < 256) → term ≤ mv → term < 256 →
      run < W32 → m < W32 →
      contLoop mv (cont ++ term :: rest) rem run m =
        (.ok (cont.length, (run + specRun mv m cont) % W32,
          m * (255 - mv) ^ cont.length % W32, term), rest) := by
  intro cont
  induction cont with
  | nil =>
    intro rem run m hrem hbytes hterm hterm2 hrun hm
    obtain ⟨rem2, rfl⟩ : ∃ r, rem = r + 1 := ⟨rem - 1, by omega⟩
    rw [contLoop]
    simp [read_u8, readN, stBind, Nat.mod_eq_of_lt hterm2, Nat.not_lt.mpr hterm,
      specRun, Nat.mod_eq_of_lt hrun, Nat.mod_eq_of_lt hm]
  | cons b bs ih =>
    intro rem run m hrem hbytes hterm hterm2 hrun hm
    obtain ⟨rem2, rfl⟩ : ∃ r, rem = r + 1 := ⟨rem - 1, by omega⟩
    have hb := hbytes b (by simp)
    have hW : 0 < W32 := by norm_num [W32]
    rw [contLoop]
    simp only [List.cons_append]
    rw [show read_u8 (b :: (bs ++ term :: rest)) = (.ok (b % 256), bs ++ term :: rest) by
      simp [read_u8, readN, stBind]]
    simp only [stBind, Nat.mod_eq_of_lt hb.2]
    rw [if_pos hb.1]
    rw [ih rem2 _ _ (by simpa using Nat.lt_of_succ_lt_succ hrem)
      (fun x hx => hbytes x (by simp [hx])) hterm hterm2
      (Nat.mod_lt _ hW) (Nat.mod_lt _ hW)]
    have hm2 : (m * (255 - mv) % W32 * (255 - mv) ^ bs.length) % W32 =
        (m * (255 - mv) ^ (b :: bs).length) % W32 := by
      apply mod_eq_of_cast
      push_cast [ZMod.natCast_mod]
      rw [List.length_cons, pow_succ]
      ring
    simp [hm2]
    rw [specRun, specRun_eq_mul mv bs (m * (255 - mv) % W32),
      specRun_eq_mul mv bs (m * (255 - mv))]
    apply mod_eq_of_cast
    push_cast [ZMod.natCast_mod]
    ring

lemma contLoop_exhaust_spec (mv : ℕ) (rest : List ℕ) :
    ∀ (cont : List ℕ) (run m : ℕ),
      (∀ b ∈ cont, mv < b ∧ b < 256) → run < W32 → m < W32 →
      contLoop mv (cont ++ rest) cont.length run m =
        (.ok (cont.length, (run + specRun mv m cont) % W32,
          m * (255 - mv) ^ cont.length % W32, 0), rest) := by
  intro cont
  induction cont with
  | nil =>
    intro run m hbytes hrun hm
    simp only [List.length_nil, List.nil_append]
    rw [contLoop]
    simp [specRun, Nat.mod_eq_of_lt hrun, Nat.mod_eq_of_lt hm]
  | cons b bs ih =>
    intro run m hbytes hrun hm
    have hb := hbytes b (by simp)
    have hW : 0 < W32 := by norm_num [W32]
    rw [List.length_cons, contLoop]
    simp only [List.cons_append]
    rw [show read_u8 (b :: (bs ++ rest)) = (.ok (b % 256), bs ++ rest) by
      simp [read_u8, readN, stBind]]
    simp only [stBind, Nat.mod_eq_of_lt hb.2]
    rw [if_pos hb.1]
    rw [ih _ _ (fun x hx => hbytes x (by simp [hx]))
      (Nat.mod_lt _ hW) (Nat.mod_lt _ hW)]
    have hm2 : (m * (255 - mv) % W32 * (255 - mv) ^ bs.length) % W32 =
        (m * (255 - mv) ^ (b :: bs).length) % W32 := by
      apply mod_eq_of_cast
      push_cast [ZMod.natCast_mod]
      rw [List.length_cons, pow_succ]
      ring
    simp [hm2]
    rw [specRun, specRun_eq_mul mv bs (m * (255 - mv) % W32),
      specRun_eq_mul mv bs (m * (255 - mv))]
    apply mod_eq_of_cast
    push_cast [ZMod.natCast_mod]
    ring

lemma runsLoop_step (t : DataRepresentationTemplate5_200) (cont : List ℕ)
    (term : ℕ) (rest : List ℕ) (rem lv : ℕ) (hrem : cont.length < rem)
    (hbytes : ∀ b ∈ cont, t.mv < b ∧ b < 256) (hterm : term ≤ t.mv)
    (hterm2 : term < 256)
    (hlv : lv ≤ t.mvl_scaled_representative_values.length) :
    runsLoop t (cont ++ term :: rest) (rem + 1) lv =
      (match runsLoop t rest (rem - cont.length) term with
       | (.ok vs, s₂) => (.ok (List.replicate ((1 + specRun t.mv 1 cont) % W32)
           (levelValue t.mvl_scaled_representative_values lv) ++ vs), s₂)
       | (.err e, s₂) => (.err e, s₂)
       | (.panic, s₂) => (.panic, s₂)) := by
  have h1W : (1 : ℕ) < W32 := by norm_num [W32]
  rw [runsLoop]
  rw [contLoop_run_spec t.mv term rest cont rem 1 1 hrem hbytes hterm hterm2 h1W h1W]
  cases lv with
  | zero => simp [levelValue]
  | succ k =>
    have hgk : t.mvl_scaled_representative_values.get? k =
        some (t.mvl_scaled_representative_values.getD k 0) := by
      rw [List.get?_eq_getElem?, List.getElem?_eq_getElem (by omega),
        List.getD_eq_getElem t.mvl_scaled_representative_values 0 (by omega)]
    simp only [hgk, levelValue]

/-! ## Claim C1 -/

/-- Claim C1: every section whose callback receives a bounded sub-reader
(identification, local use, grid definition, product definition, data
representation, bitmap, data) is processed with take-then-drain, so the
stream after the section step is the post-header stream advanced by
exactly `section_length - 5` bytes — the next section-header read starts
at the section's start offset plus its declared length — and the
take-then-drain result does not depend on how many bytes the callback
consumed.  In particular (last conjunct) the whole `read_next_message`
outcome and final stream position are identical for any two families of
callbacks, e.g. callbacks that read nothing and callbacks that read
their full bound. -/
theorem c1_take_drain_framing :
    (∀ (bound k₁ k₂ : ℕ) (s : List ℕ), takeDrain bound k₁ s = takeDrain bound k₂ s) ∧
    (∀ (h : Handlers) (hdr : SectionHeader) (s : List ℕ),
      hdr.number_of_section = 1 →
      (hdr.section_length = 21 ∨ 23 ≤ hdr.section_length) →
      hdr.section_length < W32 → hdr.section_length - 5 ≤ s.length →
      identificationStep h hdr s = (.ok (), s.drop (hdr.section_length - 5))) ∧
    (∀ (h : Handlers) (hdr : SectionHeader) (s : List ℕ),
      hdr.number_of_section = 2 → 5 ≤ hdr.section_length →
      hdr.section_length < W32 → hdr.section_length - 5 ≤ s.length →
      localUseStep h hdr s = (.ok (), s.drop (hdr.section_length - 5))) ∧
    (∀ (h : Handlers) (hdr : SectionHeader) (s : List ℕ),
      hdr.number_of_section = 3 → 14 ≤ hdr.section_length →
      hdr.section_length < W32 → hdr.section_length - 5 ≤ s.length →
      gridDefinitionStep h hdr s = (.ok (), s.drop (hdr.section_length - 5))) ∧
    (∀ (h : Handlers) (hdr : SectionHeader) (s : List ℕ),
      hdr.number_of_section = 4 → 9 ≤ hdr.section_length →
      hdr.section_length < W32 → hdr.section_length - 5 ≤ s.length →
      productDefinitionStep h hdr s = (.ok (), s.drop (hdr.section_length - 5))) ∧
    (∀ (h : Handlers) (hdr : SectionHeader) (s : List ℕ),
      hdr.number_of_section = 5 → 11 ≤ hdr.section_length →
      hdr.section_length < W32 → hdr.section_length - 5 ≤ s.length →
      dataRepresentationStep h hdr s = (.ok (), s.drop (hdr.section_length - 5))) ∧
    (∀ (h : Handlers) (hdr : SectionHeader) (s : List ℕ),
      hdr.number_of_section = 6 → 6 ≤ hdr.section_length →
      hdr.section_length < W32 → hdr.section_length - 5 ≤ s.length →
      bitmapStep h hdr s = (.ok (), s.drop (hdr.section_length - 5))) ∧
    (∀ (h : Handlers) (hdr : SectionHeader) (s : List ℕ),
      hdr.number_of_section = 7 → 5 ≤ hdr.section_length →
      hdr.section_length < W32 → hdr.section_length - 5 ≤ s.length →
      dataStep h hdr s = (.ok (), s.drop (hdr.section_length - 5))) ∧
    (∀ (h₁ h₂ : Handlers) (s : List ℕ),
      read_next_message h₁ s = read_next_message h₂ s) := by
  refine ⟨?_, identificationStep_drop, localUseStep_drop, gridDefinitionStep_drop,
    productDefinitionStep_drop, dataRepresentationStep_drop, bitmapStep_drop,
    dataStep_drop, read_next_message_handlers⟩
  intro bound k₁ k₂ s
  rw [takeDrain_eq, takeDrain_eq]

/-- Witness for C1: each positional conjunct at a concrete well-formed
section, the callback-consumption independence at two concrete
consumption amounts, and framing equality of the zero-reading and
full-reading callback families on a concrete stream. -/
theorem c1_take_drain_framing_witness :
    takeDrain 3 0 [1, 2, 3, 4] = takeDrain 3 3 [1, 2, 3, 4] ∧
    identificationStep defaultHandlers ⟨21, 1⟩ (List.replicate 16 0) =
      (.ok (), (List.replicate 16 0).drop (21 - 5)) ∧
    localUseStep defaultHandlers ⟨5, 2⟩ [] = (.ok (), List.drop (5 - 5) []) ∧
    gridDefinitionStep defaultHandlers ⟨14, 3⟩ (List.replicate 9 0) =
      (.ok (), (List.replicate 9 0).drop (14 - 5)) ∧
    productDefinitionStep defaultHandlers ⟨9, 4⟩ (List.replicate 4 0) =
      (.ok (), (List.replicate 4 0).drop (9 - 5)) ∧
    dataRepresentationStep defaultHandlers ⟨11, 5⟩ (List.replicate 6 0) =
      (.ok (), (List.replicate 6 0).drop (11 - 5)) ∧
    bitmapStep defaultHandlers ⟨6, 6⟩ [0] = (.ok (), List.drop (6 - 5) [0]) ∧
    dataStep defaultHandlers ⟨5, 7⟩ [] = (.ok (), List.drop (5 - 5) []) ∧
    read_next_message defaultHandlers [71, 82, 73, 66] =
      read_next_message greedyHandlers [71, 82, 73, 66] :=
  ⟨c1_take_drain_framing.1 3 0 3 [1, 2, 3, 4],
   c1_take_drain_framing.2.1 defaultHandlers ⟨21, 1⟩ (List.replicate 16 0)
     rfl (Or.inl rfl) (by norm_num [W32]) (by simp),
   c1_take_drain_framing.2.2.1 defaultHandlers ⟨5, 2⟩ []
     rfl (by norm_num) (by norm_num [W32]) (by simp),
   c1_take_drain_framing.2.2.2.1 defaultHandlers ⟨14, 3⟩ (List.replicate 9 0)
     rfl (by norm_num) (by norm_num [W32]) (by simp),
   c1_take_drain_framing.2.2.2.2.1 defaultHandlers ⟨9, 4⟩ (List.replicate 4 0)
     rfl (by norm_num) (by norm_num [W32]) (by simp),
   c1_take_drain_framing.2.2.2.2.2.1 defaultHandlers ⟨11, 5⟩ (List.replicate 6 0)
     rfl (by norm_num) (by norm_num [W32]) (by simp),
   c1_take_drain_framing.2.2.2.2.2.2.1 defaultHandlers ⟨6, 6⟩ [0]
     rfl (by norm_num) (by norm_num [W32]) (by simp),
   c1_take_drain_framing.2.2.2.2.2.2.2.1 defaultHandlers ⟨5, 7⟩ []
     rfl (by norm_num) (by norm_num [W32]) (by simp),
   c1_take_drain_framing.2.2.2.2.2.2.2.2 defaultHandlers greedyHandlers
     [71, 82, 73, 66]⟩

/-! ## Claim C3 -/

/-- Claim C3: in the run-length decoder every run length starts at 1;
each continuation byte `b` (value greater than `mv`) adds
`(b - mv - 1) * m` to the run length, with `m` starting at 1 and
multiplied by `(255 - mv)` after each continuation byte (all in the
source's `u32` arithmetic, hence the reductions modulo `2^32`); the run
terminates on the first byte at most `mv` — which becomes the next run's
level — or at the end of the payload.  First conjunct: a run whose
continuation bytes are `cont` followed by a terminating byte `term`
accumulates exactly the claimed sum and hands `term` on.  Second
conjunct: the same when the payload budget ends inside the run.  Third
conjunct: one iteration of the decoding loop emits that many copies of
the current level's value and continues with `term` as the next level. -/
theorem c3_run_length_algorithm :
    (∀ (mv : ℕ) (cont : List ℕ) (term : ℕ) (rest : List ℕ) (rem : ℕ),
      cont.length < rem → (∀ b ∈ cont, mv < b ∧ b < 256) → term ≤ mv →
      term < 256 →
      contLoop mv (cont ++ term :: rest) rem 1 1 =
        (.ok (cont.length, (1 + specRun mv 1 cont) % W32,
          (255 - mv) ^ cont.length % W32, term), rest)) ∧
    (∀ (mv : ℕ) (cont rest : List ℕ), (∀ b ∈ cont, mv < b ∧ b < 256) →
      contLoop mv (cont ++ rest) cont.length 1 1 =
        (.ok (cont.length, (1 + specRun mv 1 cont) % W32,
          (255 - mv) ^ cont.length % W32, 0), rest)) ∧
    (∀ (t : DataRepresentationTemplate5_200) (cont : List ℕ) (term : ℕ)
      (rest : List ℕ) (rem lv : ℕ), cont.length < rem →
      (∀ b ∈ cont, t.mv < b ∧ b < 256) → term ≤ t.mv → term < 256 →
      lv ≤ t.mvl_scaled_representative_values.length →
      runsLoop t (cont ++ term :: rest) (rem + 1) lv =
        (match runsLoop t rest (rem - cont.length) term with
         | (.ok vs, s₂) => (.ok (List.replicate ((1 + specRun t.mv 1 cont) % W32)
             (levelValue t.mvl_scaled_representative_values lv) ++ vs), s₂)
         | (.err e, s₂) => (.err e, s₂)
         | (.panic, s₂) => (.panic, s₂))) := by
  refine ⟨?_, ?_, ?_⟩
  · intro mv cont term rest rem h1 h2 h3 h4
    have h := contLoop_run_spec mv term rest cont rem 1 1 h1 h2 h3 h4
      (by norm_num [W32]) (by norm_num [W32])
    simpa [one_mul] using h
  · intro mv cont rest h2
    have h := contLoop_exhaust_spec mv rest cont 1 1 h2
      (by norm_num [W32]) (by norm_num [W32])
    simpa [one_mul] using h
  · intro t cont term rest rem lv h1 h2 h3 h4 h5
    exact runsLoop_step t cont term rest rem lv h1 h2 h3 h4 h5

/-- Witness for C3: one concrete instance of each conjunct (`mv = 100`,
continuation bytes `[150, 200]`, terminator 7; an exhausted-budget run;
and one loop iteration at level 1 over a 2-entry table). -/
theorem c3_run_length_algorithm_witness :
    contLoop 100 [150, 200, 7, 9] 5 1 1 =
      (.ok (2, (1 + specRun 100 1 [150, 200]) % W32,
        (255 - 100) ^ 2 % W32, 7), [9]) ∧
    contLoop 10 [20, 30, 5] 2 1 1 =
      (.ok (2, (1 + specRun 10 1 [20, 30]) % W32,
        (255 - 10) ^ 2 % W32, 0), [5]) ∧
    runsLoop ⟨8, 10, 2, 0, [11, 22]⟩ [12, 3, 7] 3 1 =
      (match runsLoop ⟨8, 10, 2, 0, [11, 22]⟩ [7] 1 3 with
       | (.ok vs, s₂) => (.ok (List.replicate ((1 + specRun 10 1 [12]) % W32)
           (levelValue [11, 22] 1) ++ vs), s₂)
       | (.err e, s₂) => (.err e, s₂)
       | (.panic, s₂) => (.panic, s₂)) := by
  refine ⟨?_, ?_, ?_⟩
  · exact c3_run_length_algorithm.1 100 [150, 200] 7 [9] 5 (by decide)
      (by decide) (by decide) (by decide)
  · exact c3_run_length_algorithm.2.1 10 [20, 30] [5] (by decide)
  · exact c3_run_length_algorithm.2.2 ⟨8, 10, 2, 0, [11, 22]⟩ [12] 3 [7] 2 1
      (by decide) (by decide) (by decide) (by decide) (by decide)

/-! ## Claim C5 -/

/-- Claim C5: for every input, if the data-representation template's
`number_of_bits` is not 8, `read_data_7_200` returns the
unsupported-feature error (not a panic) and leaves the stream untouched
(no payload byte is consumed). -/
theorem c5_number_of_bits_guard (s : List ℕ) (size : ℕ)
    (drs : DataRepresentationSectionHeader) (t : DataRepresentationTemplate5_200)
    (h : t.number_of_bits ≠ 8) :
    read_data_7_200 s size drs t =
      (.err (.UnsupportedData
        ("Only supports 8 bits in our 7.200 implementation, but got " ++
          toString t.number_of_bits)), s) := by
  simp [read_data_7_200, h]

/-- Witness for C5 at `number_of_bits = 7` on a nonempty stream. -/
theorem c5_number_of_bits_guard_witness :
    (7 : ℕ) ≠ 8 ∧
    read_data_7_200 [9, 9] 2 ⟨11, 0, 200⟩ ⟨7, 0, 0, 0, []⟩ =
      (.err (.UnsupportedData
        ("Only supports 8 bits in our 7.200 implementation, but got " ++
          toString (7 : ℕ))), [9, 9]) :=
  ⟨by decide, c5_number_of_bits_guard [9, 9] 2 ⟨11, 0, 200⟩ ⟨7, 0, 0, 0, []⟩ (by decide)⟩

/-! ## Claim C10 -/

/-- Claim C10: `read_data_7_200` reads the initial level byte before
checking the size bound, so `size = 0` on an empty payload yields the IO
(unexpected end-of-file) error, not an empty value vector. -/
theorem c10_initial_read_before_size_check (drs : DataRepresentationSectionHeader)
    (t : DataRepresentationTemplate5_200) (h : t.number_of_bits = 8) :
    read_data_7_200 [] 0 drs t = (.err .ioErr, []) := by
  simp [read_data_7_200, h, read_u8, readN, stBind]

/-- Witness for C10 with a concrete template. -/
theorem c10_initial_read_before_size_check_witness :
    (⟨8, 0, 1, 0, [42]⟩ : DataRepresentationTemplate5_200).number_of_bits = 8 ∧
    read_data_7_200 [] 0 ⟨11, 3, 200⟩ ⟨8, 0, 1, 0, [42]⟩ = (.err .ioErr, []) :=
  ⟨rfl, c10_initial_read_before_size_check ⟨11, 3, 200⟩ ⟨8, 0, 1, 0, [42]⟩ rfl⟩

/-! ## Claim C4 -/

/-- Claim C4 (code bug): a level whose 1-based index exceeds the
representative-value table does not produce the error the spec requires;
the `Vec` index `mvl_scaled_representative_values[(lv - 1) as usize]`
panics.  Failing input: `mv = 0`, empty table, payload `[1]`, `size = 1`
— level 1 looks up index 0 of the empty table. -/
theorem c4_out_of_range_level_panics :
    read_data_7_200 [1] 1 ⟨11, 1, 200⟩ ⟨8, 0, 0, 0, []⟩ = (.panic, []) := by
  simp [read_data_7_200, runsLoop, contLoop, read_u8, readN, stBind]

/-! ## Claim C2 -/

/-- Claim C2 counterexample: with `mv = 0`, payload `[0, 1, 0]`
(`lv0 = 0`, continuation byte `mv + 1 = 1`, `lv1 = 0`) and `size = 3`,
the decoder produces 2 elements, not the 3 the claim states: the
continuation byte `mv + 1` extends the run by `(mv+1-mv-1)*m = 0`. -/
theorem c2_counterexample :
    (read_data_7_200 [0, 1, 0] 3 ⟨11, 3, 200⟩ ⟨8, 0, 1, 0, [42]⟩).1 =
      .ok [none, none] ∧
    (read_data_7_200 [0, 1, 0] 3 ⟨11, 3, 200⟩ ⟨8, 0, 1, 0, [42]⟩).1 ≠
      .ok [none, none, none] := by
  constructor <;>
    simp [read_data_7_200, runsLoop, contLoop, read_u8, readN, stBind, W32]

/-- Claim C2 as amended: decoding `[lv0, mv+1, lv1]` with `size = 3`
produces `lv0`'s value once followed by `lv1`'s value once — exactly 2
elements — because the continuation byte `mv + 1` contributes
`(mv+1-mv-1) * m = 0` to the run length. -/
theorem c2_amended (mv lv0 lv1 mvl dsf : ℕ) (table : List ℕ)
    (drs : DataRepresentationSectionHeader) (hmv : mv ≤ 254)
    (h0 : lv0 ≤ mv) (h1 : lv1 ≤ mv)
    (ht0 : lv0 ≤ table.length) (ht1 : lv1 ≤ table.length) :
    read_data_7_200 [lv0, mv + 1, lv1] 3 drs ⟨8, mv, mvl, dsf, table⟩ =
      (.ok [levelValue table lv0, levelValue table lv1], []) := by
  have hlt0 : lv0 < 256 := by omega
  have hlt1 : lv1 < 256 := by omega
  have hmv1 : (mv + 1) % 256 = mv + 1 := Nat.mod_eq_of_lt (by omega)
  simp only [read_data_7_200, read_u8, readN, stBind, List.length_cons,
    List.length_nil, List.take, List.drop, List.headD]
  norm_num [Nat.mod_eq_of_lt hlt0]
  rw [show (3 : ℕ) = 2 + 1 from rfl, runsLoop]
  simp only [contLoop, read_u8, readN, stBind, List.length_cons, List.length_nil,
    List.take, List.drop, List.headD]
  norm_num [hmv1, Nat.mod_eq_of_lt hlt1]
  rw [if_neg (Nat.not_lt.mpr h1)]
  norm_num [Nat.mod_eq_of_lt (show (1 : ℕ) < W32 by norm_num [W32])]
  have hget : ∀ k : ℕ, k < table.length → table[k]? = some (table.getD k 0) := by
    intro k hk
    rw [List.getElem?_eq_getElem hk, List.getD_eq_getElem table 0 hk]
  have hz : ∀ lv', runsLoop ⟨8, mv, mvl, dsf, table⟩ [] 0 lv' = (.ok [], []) := by
    intro lv'
    rw [runsLoop]
  have hc : contLoop mv [] 0 1 1 = (.ok (0, 1, 1, 0), []) := rfl
  have key : runsLoop ⟨8, mv, mvl, dsf, table⟩ [] 1 lv1 =
      (.ok [levelValue table lv1], []) := by
    rw [show (1 : ℕ) = 0 + 1 from rfl, runsLoop, hc]
    cases lv1 with
    | zero => simp [hz, levelValue]
    | succ k =>
      have hgk := hget k (by omega)
      simp only [Nat.sub_zero]
      simp [hz, levelValue]
      rw [hgk]
      simp
  cases lv0 with
  | zero => simp [key, levelValue]
  | succ k0 =>
    have hgk0 := hget k0 (by omega)
    simp [key, levelValue]
    rw [hgk0]
    simp
/-- Witness for the amended C2 at `mv = 5`, `lv0 = 2`, `lv1 = 0`,
table `[10, 20, 30]`. -/
theorem c2_amended_witness :
    read_data_7_200 [2, 6, 0] 3 ⟨11, 3, 200⟩ ⟨8, 5, 3, 0, [10, 20, 30]⟩ =
      (.ok [some 20, none], []) :=
  c2_amended 5 2 0 3 0 [10, 20, 30] ⟨11, 3, 200⟩ (by decide) (by decide)
    (by decide) (by decide) (by decide)

/-! ## Claim C6 -/

/-- Claim C6 (code bug): a declared section length smaller than the
section's fixed overhead does not fail with a format error; the `u32`
subtraction in `body_len` silently wraps around (and would panic in a
debug build).  Identification with length 22 (below its overhead 23)
wraps to `2^32 - 1`; Local Use with length 3 (below its overhead 5)
wraps to `2^32 - 2`. -/
theorem c6_body_len_underflow_wraps :
    IdentificationSectionHeader.body_len
      ⟨22, 0, 0, 0, 0, 0, 0, 0, 0, 0, 0, 0, 0, 0, none⟩ = 4294967295 ∧
    LocalUseSectionHeader.body_len ⟨3⟩ = 4294967294 := by
  constructor <;> decide

/-! ## Claim C9 -/

/-- Claim C9 (code bug): `run_length` and `m` are `u32`, which is not
wide enough: with `mv = 0` a run with five continuation bytes `0xFF` has
true run length `255^5 = 1078203909375`, but the accumulated `u32` value
wraps to `1078203909375 mod 2^32 = 167118079` (debug builds panic on
the multiply).  The first conjunct evaluates the embedded inner loop at
the failing input; the others give the exact value demanded by the
spec's own formula and show the mismatch. -/
theorem c9_multiplier_overflow_wraps :
    contLoop 0 [255, 255, 255, 255, 255] 5 1 1 =
      (.ok (5, 167118079, 167118079, 0), []) ∧
    1 + specRun 0 1 [255, 255, 255, 255, 255] = 1078203909375 ∧
    (167118079 : ℕ) ≠ 1078203909375 := by
  refine ⟨by decide, by decide, by decide⟩

/-! ## Claim C7 -/

/-- Claim C7: end of stream before the 4-byte magic read is the normal
"no more messages" outcome; four bytes that are not "GRIB" (71, 82, 73,
66) are an `InvalidData` error; once the magic has matched the call
never returns "no more messages", and end of stream in the middle of a
message (here: right after the magic) surfaces as an IO error, not as
success. -/
theorem c7_end_of_stream_semantics :
    (∀ h : Handlers, read_next_message h [] = (.ok none, [])) ∧
    (∀ (h : Handlers) (b₁ b₂ b₃ b₄ : ℕ) (rest : List ℕ),
      leVal [b₁, b₂, b₃, b₄] ≠ 0x42495247 →
      read_next_message h (b₁ :: b₂ :: b₃ :: b₄ :: rest) =
        (.err (.InvalidData "message identifier must be GRIB"), rest)) ∧
    (∀ (h : Handlers) (rest : List ℕ),
      (read_next_message h (71 :: 82 :: 73 :: 66 :: rest)).1 ≠ .ok none) ∧
    (∀ h : Handlers, (read_next_message h [71, 82, 73, 66]).1 = .err .ioErr) := by
  have hmagic : ∀ rest : List ℕ,
      read_u32_le (71 :: 82 :: 73 :: 66 :: rest) = (.ok 1112101447, rest) := by
    intro rest
    have hlen : 4 ≤ (71 :: 82 :: 73 :: 66 :: rest).length := by simp
    rw [read_u32_le, readN_of_le hlen]
    simp [stBind, leVal]
  refine ⟨?_, ?_, ?_, ?_⟩
  · intro h
    simp [read_next_message, read_u32_le, readN, stBind]
  · intro h b₁ b₂ b₃ b₄ rest hne
    have hlen : 4 ≤ (b₁ :: b₂ :: b₃ :: b₄ :: rest).length := by simp
    have hle : read_u32_le (b₁ :: b₂ :: b₃ :: b₄ :: rest) =
        (.ok (leVal [b₁, b₂, b₃, b₄]), rest) := by
      rw [read_u32_le, readN_of_le hlen]
      simp [stBind]
    simp [read_next_message, hle, hne]
  · intro h rest
    simp only [read_next_message, hmagic rest]
    norm_num
    exact liftMsg_ne_ok_none _
  · intro h
    simp only [read_next_message, hmagic []]
    norm_num [IndicatorSectionHeader.read, read_u16_ne, readN, stBind, liftMsg]

/-- Witness for C7: concrete streams for each conjunct (the empty
stream, a zero magic, and a magic-only stream). -/
theorem c7_end_of_stream_semantics_witness :
    read_next_message defaultHandlers [] = (.ok none, []) ∧
    read_next_message defaultHandlers [0, 0, 0, 0, 1, 2] =
      (.err (.InvalidData "message identifier must be GRIB"), [1, 2]) ∧
    (read_next_message defaultHandlers [71, 82, 73, 66]).1 ≠ .ok none ∧
    (read_next_message defaultHandlers [71, 82, 73, 66]).1 = .err .ioErr :=
  ⟨c7_end_of_stream_semantics.1 defaultHandlers,
   c7_end_of_stream_semantics.2.1 defaultHandlers 0 0 0 0 [1, 2] (by decide),
   c7_end_of_stream_semantics.2.2.1 defaultHandlers [],
   c7_end_of_stream_semantics.2.2.2 defaultHandlers⟩

/-! ## Claim C8 -/

/-- Claim C8: after each data section the next header is read with the
end sentinel allowed (a "7777" prefix yields the synthetic header with
length 4, number 8), and is dispatched exactly as: number 4 continues
the inner loop, number 2 or 3 goes back to the Local-Use/Grid-Definition
stage of the same message, number 8 completes the message with success,
and any other number is the fatal "invalid section number" format
error. -/
theorem c8_after_data_dispatch :
    (∀ (h : Handlers) (fuel : ℕ) (hdr : SectionHeader) (s : List ℕ),
      hdr.number_of_section = 4 →
      afterDataDispatch h fuel hdr s = innerLoop h fuel hdr s) ∧
    (∀ (h : Handlers) (fuel : ℕ) (hdr : SectionHeader) (s : List ℕ),
      hdr.number_of_section = 2 ∨ hdr.number_of_section = 3 →
      afterDataDispatch h fuel hdr s = outerLoop h fuel hdr s) ∧
    (∀ (h : Handlers) (fuel : ℕ) (hdr : SectionHeader) (s : List ℕ),
      hdr.number_of_section = 8 →
      afterDataDispatch h fuel hdr s = (.ok (), s)) ∧
    (∀ (h : Handlers) (fuel : ℕ) (hdr : SectionHeader) (s : List ℕ),
      hdr.number_of_section ≠ 2 → hdr.number_of_section ≠ 3 →
      hdr.number_of_section ≠ 4 → hdr.number_of_section ≠ 8 →
      afterDataDispatch h fuel hdr s =
        (.err (.InvalidData "invalid section number"), s)) ∧
    (∀ rest : List ℕ, SectionHeader.read (55 :: 55 :: 55 :: 55 :: rest) true =
      (.ok ⟨4, 8⟩, rest)) := by
  refine ⟨?_, ?_, ?_, ?_, ?_⟩
  · intro h fuel hdr s h4
    rw [afterDataDispatch, h4]
    norm_num
  · intro h fuel hdr s h23
    rcases h23 with h2 | h3
    · rw [afterDataDispatch, h2]
      norm_num
    · rw [afterDataDispatch, h3]
      norm_num
  · intro h fuel hdr s h8
    rw [afterDataDispatch, h8]
    norm_num
  · intro h fuel hdr s h2 h3 h4 h8
    rw [afterDataDispatch, if_neg (by simp [h2, h3]), if_neg h4, if_neg h8]
  · intro rest
    have hlen : 4 ≤ (55 :: 55 :: 55 :: 55 :: rest).length := by simp
    have hr : read_u32_be (55 :: 55 :: 55 :: 55 :: rest) = (.ok 926365495, rest) := by
      rw [read_u32_be, readN_of_le hlen]
      simp [stBind, beVal]
    rw [SectionHeader.read, hr, stBind]
    norm_num

/-- Witness for C8: each dispatch branch at a concrete header, and the
end sentinel on a concrete stream. -/
theorem c8_after_data_dispatch_witness :
    afterDataDispatch defaultHandlers 3 ⟨100, 4⟩ [1, 2] =
      innerLoop defaultHandlers 3 ⟨100, 4⟩ [1, 2] ∧
    afterDataDispatch defaultHandlers 3 ⟨100, 2⟩ [1, 2] =
      outerLoop defaultHandlers 3 ⟨100, 2⟩ [1, 2] ∧
    afterDataDispatch defaultHandlers 3 ⟨4, 8⟩ [1, 2] = (.ok (), [1, 2]) ∧
    afterDataDispatch defaultHandlers 3 ⟨100, 9⟩ [1, 2] =
      (.err (.InvalidData "invalid section number"), [1, 2]) ∧
    SectionHeader.read [55, 55, 55, 55, 9] true = (.ok ⟨4, 8⟩, [9]) :=
  ⟨c8_after_data_dispatch.1 defaultHandlers 3 ⟨100, 4⟩ [1, 2] rfl,
   c8_after_data_dispatch.2.1 defaultHandlers 3 ⟨100, 2⟩ [1, 2] (Or.inl rfl),
   c8_after_data_dispatch.2.2.1 defaultHandlers 3 ⟨4, 8⟩ [1, 2] rfl,
   c8_after_data_dispatch.2.2.2.1 defaultHandlers 3 ⟨100, 9⟩ [1, 2]
     (by decide) (by decide) (by decide) (by decide),
   c8_after_data_dispatch.2.2.2.2 [9]⟩

end TinyGrib2
